import Mathlib

/-!
Shallow embedding of `omero_scripts/omero_basics.py` (jmuhlich/OMERO_scripts).

The module defines `OMEROConnectionManager` (credential resolution in
`__init__`, `connect`, `disconnect`, `hql_query`) and the utilities
`write_csv` and `well_from_row_col`.  External collaborators (the CLI
session store, the filesystem, the INI config parser, the BlitzGateway
client) are modelled as an explicit environment record; the Python methods
become pure functions from (arguments, environment, state) to an outcome
that distinguishes a normal return, a `sys.exit` with a code and the text
written to stderr, and an uncaught Python exception.
-/

/-- Outcome of running a Python code path: normal value, `sys.exit(code)`
    after writing `stderr` text, or an uncaught exception. -/
inductive Outcome (α : Type) where
  | ok : α → Outcome α
  | exit : Nat → String → Outcome α
  | raised : String → Outcome α
  deriving DecidableEq, Repr

/-- A scalar Python value as it appears in query results and CSV cells. -/
inductive PyVal where
  | int : Int → PyVal
  | str : String → PyVal
  deriving DecidableEq, Repr

/-- The state of an `OMEROConnectionManager` instance: the connection
    handle (`self.conn`, `none` when not connected; handles are modelled by
    numeric ids) and the credential attributes set by `__init__`. -/
structure OCM where
  conn : Option Nat
  SUUID : Option String
  HOST : Option String
  PORT : Option Int
  USERNAME : Option String
  PASSWORD : Option String
  deriving DecidableEq, Repr

/-- The 4-tuple returned by `SessionsStore().get_current()`:
    (host, username, session uuid, port), each possibly absent. -/
structure SessionTuple where
  host : Option String
  username : Option String
  suuid : Option String
  port : Option Int
  deriving DecidableEq, Repr

/-- Result of parsing the config file: for each key of the
    `OMEROCredentials` section, either the value or the message of the
    exception raised by `ConfigParser.get` / `getint`. -/
structure RawConfig where
  host : Except String String
  port : Except String Int
  username : Except String String
  password : Except String String

/-- Environment of `__init__`: the CLI session store, `os.path.expanduser`,
    `os.path.exists`, `os.path.isfile`, `os.stat(...).st_mode` and the
    config parser, all external to the code under verification. -/
structure InitEnv where
  get_current : SessionTuple
  expanduser : String → String
  path_exists : String → Bool
  isfile : String → Bool
  st_mode : String → Nat
  readConfig : String → RawConfig

/-- stderr text of the missing-config-file fatal error (source line 44). -/
def missingMsg (path : String) : String :=
  "No active OMERO CLI session and configuration file " ++ path ++
  " does not exist\n"

/-- stderr text of the insecure-permissions fatal error (source line 51). -/
def permMsg (path : String) : String :=
  "Configuration file contains private credentials and must not be " ++
  "accessible by other users. Please run:\n\n    chmod 600 " ++ path ++ "\n\n"

/-- stderr text of the failed-connection fatal error (source line 86). -/
def connFailMsg : String :=
  "Error: Connection not available, please check your user name and " ++
  "password.\n"

/-- `OMEROConnectionManager.__init__(config_file)`.  Returns the outcome
    together with a flag recording whether the config file was read
    (`ConfigParser.read` reached). -/
def initOCM (config_file : Option String) (env : InitEnv) :
    Outcome OCM × Bool :=
  -- self.conn = None; all credential attributes start as None.
  let m0 : OCM := ⟨none, none, none, none, none, none⟩
  -- if config_file is None: unpack store.get_current().
  let m1 : OCM :=
    match config_file with
    | none =>
        let s := env.get_current
        { m0 with HOST := s.host, USERNAME := s.username,
                  SUUID := s.suuid, PORT := s.port }
    | some _ => m0
  -- if config_file is not None or self.SUUID is None:
  if config_file.isSome || m1.SUUID.isNone then
    let path0 := match config_file with
      | none => "~/.omero/config"
      | some p => p
    let path := env.expanduser path0
    if !(env.path_exists path && env.isfile path) then
      (Outcome.exit 1 (missingMsg path), false)
    else if env.st_mode path &&& 63 != 0 then
      (Outcome.exit 1 (permMsg path), false)
    else
      let cfg := env.readConfig path
      match cfg.host with
      | Except.error e => (Outcome.raised e, true)
      | Except.ok h =>
        match cfg.port with
        | Except.error e => (Outcome.raised e, true)
        | Except.ok pt =>
          match cfg.username with
          | Except.error e => (Outcome.raised e, true)
          | Except.ok u =>
            match cfg.password with
            | Except.error e => (Outcome.raised e, true)
            | Except.ok pw =>
              (Outcome.ok { m1 with HOST := some h, PORT := some pt,
                                    USERNAME := some u,
                                    PASSWORD := some pw }, true)
  else
    (Outcome.ok m1, false)

/-- The arguments the code hands to the client library when building and
    connecting a new gateway: `BlitzGateway(username=..., passwd=...,
    host=..., port=...)` followed by `conn.connect(sUuid=...)`. -/
structure ConnectCall where
  username : Option String
  passwd : Option String
  host : Option String
  port : Option Int
  sUuid : Option String
  deriving DecidableEq, Repr

/-- Environment of `connect`: the handle id the gateway constructor
    produces and the boolean the underlying `connect` call returns. -/
structure GatewayEnv where
  freshHandle : Nat
  connectResult : Bool

/-- `OMEROConnectionManager.connect()`.  Returns the outcome (updated
    state and the returned handle) together with the call made to the
    client library, `none` when the early-return path was taken. -/
def connectOCM (m : OCM) (gw : GatewayEnv) :
    Outcome (OCM × Nat) × Option ConnectCall :=
  match m.conn with
  | some c => (Outcome.ok (m, c), none)
  | none =>
    let call : ConnectCall :=
      ⟨m.USERNAME, m.PASSWORD, m.HOST, m.PORT, m.SUUID⟩
    if gw.connectResult then
      (Outcome.ok ({ m with conn := some gw.freshHandle },
                   gw.freshHandle), some call)
    else
      (Outcome.exit 1 connFailMsg, some call)

/-- `OMEROConnectionManager.disconnect()`.  Returns the updated state and
    whether `self.conn.seppuku(softclose=True)` was invoked. -/
def disconnectOCM (m : OCM) : OCM × Bool :=
  match m.conn with
  | some _ => ({ m with conn := none }, true)
  | none => (m, false)

/-- A cell of a projection result: either SQL null (Python `None`) or an
    OMERO wrapper holding a scalar in its `val` attribute. -/
inductive WCell where
  | null : WCell
  | wrap : PyVal → WCell
  deriving DecidableEq, Repr

/-- The per-cell unwrapping performed by the loop in `hql_query`:
    `None` stays `None`, otherwise `column.val` is taken. -/
def unwrapCell : WCell → Option PyVal
  | WCell.null => none
  | WCell.wrap v => some v

/-- `OMEROConnectionManager.hql_query(query, params)`.  The query service
    is external; `projection` is the row list `qs.projection(...)`
    returns.  Connects on demand, then unwraps every cell of every row. -/
def hql_query (m : OCM) (gw : GatewayEnv) (projection : List (List WCell)) :
    Outcome (OCM × List (List (Option PyVal))) :=
  match m.conn with
  | none =>
    match connectOCM m gw with
    | (Outcome.ok (m1, _), _) =>
        Outcome.ok (m1, projection.map (List.map unwrapCell))
    | (Outcome.exit c s, _) => Outcome.exit c s
    | (Outcome.raised s, _) => Outcome.raised s
  | some _ => Outcome.ok (m, projection.map (List.map unwrapCell))

/-- `str()` conversion the csv writer applies to each field. -/
def pyStr : PyVal → String
  | PyVal.int n => toString n
  | PyVal.str s => s

/-- With `QUOTE_NONE` and no escapechar, the csv writer raises when a
    field contains the delimiter, the quote character or a line-terminator
    character; otherwise the field is written raw and unquoted. -/
def fieldNeedsEscape (s : String) : Bool :=
  s.data.any (fun c => c = ',' || c = '"' || c = '\r' || c = '\n')

/-- One line produced by `row_writer.writerow`: fields joined by `,` and
    terminated by `\r\n` (the csv module's default), or the
    `QUOTE_NONE` error. -/
def csvLine (row : List PyVal) : Except String String :=
  if (row.map pyStr).any fieldNeedsEscape then
    Except.error "need to escape, but no escapechar set"
  else
    Except.ok (String.intercalate "," (row.map pyStr) ++ "\r\n")

/-- Writes `rows` one line at a time onto the already-written prefix
    `acc`, stopping at the first csv error (the file keeps the prefix). -/
def writeAll : List (List PyVal) → String → String × Option String
  | [], acc => (acc, none)
  | r :: rs, acc =>
    match csvLine r with
    | Except.error e => (acc, some e)
    | Except.ok l => writeAll rs (acc ++ l)

/-- A filesystem: contents of each path, `none` when no file exists. -/
def FS : Type := String → Option String

/-- Errors `write_csv` can raise to its caller (never `sys.exit`). -/
inductive WriteErr where
  | valueError : String → WriteErr
  | csvError : String → WriteErr
  deriving DecidableEq, Repr

/-- `write_csv(rows, filename, header)`.  Validates the header length
    against the first row, then opens the file in `wb` mode (truncating
    any existing file) and writes the header line followed by the data
    rows.  Returns the outcome and the resulting filesystem. -/
def write_csv (rows : List (List PyVal)) (filename : String)
    (header : Option (List PyVal)) (fs : FS) :
    Except WriteErr Unit × FS :=
  -- if header is not None and len(rows) > 0 and len(rows[0]) != len(header)
  if header.isSome && decide (0 < rows.length) &&
     decide (rows.headI.length ≠ (header.getD []).length) then
    (Except.error (WriteErr.valueError
      ("Header does not have the same number of columns " ++
       "as the rows")), fs)
  else
    let toWrite := (match header with
      | some hd => [hd]
      | none => []) ++ rows
    let w := writeAll toWrite ""
    let fs1 : FS := fun p => if p = filename then some w.1 else fs p
    match w.2 with
    | some e => (Except.error (WriteErr.csvError e), fs1)
    | none => (Except.ok (), fs1)

/-- `well_from_row_col(row, column)`:
    `'%s%i' % (chr(65 + int(row)), column + 1)`. -/
def well_from_row_col (row column : Nat) : String :=
  String.singleton (Char.ofNat (65 + row)) ++ toString (column + 1)


/-! ## Theorems -/

/-- C9: `well_from_row_col` is a pure function on zero-based inputs: for
    every row in 0..25 and every column, it returns the uppercase letter
    at offset `row` from `'A'` concatenated with the one-based column
    number; in particular `well_from_row_col 0 0 = "A1"`,
    `well_from_row_col 3 2 = "D3"` and `well_from_row_col 25 0 = "Z1"`. -/
theorem well_from_row_col_spec (row column : Nat) (h : row ≤ 25) :
    (∃ c : Char, c.isUpper ∧ c.toNat = Char.toNat 'A' + row ∧
      well_from_row_col row column =
        String.singleton c ++ toString (column + 1)) ∧
    well_from_row_col 0 0 = "A1" ∧
    well_from_row_col 3 2 = "D3" ∧
    well_from_row_col 25 0 = "Z1" := by
  refine ⟨⟨Char.ofNat (65 + row), ?_, ?_, rfl⟩, by decide, by decide, by decide⟩
  · interval_cases row <;> decide
  · interval_cases row <;> decide

/-- Witness for C9 at row 3, column 2. -/
theorem well_from_row_col_spec_witness :
    3 ≤ 25 ∧
    ((∃ c : Char, c.isUpper ∧ c.toNat = Char.toNat 'A' + 3 ∧
        well_from_row_col 3 2 = String.singleton c ++ toString (2 + 1)) ∧
      well_from_row_col 0 0 = "A1" ∧
      well_from_row_col 3 2 = "D3" ∧
      well_from_row_col 25 0 = "Z1") :=
  ⟨by decide, well_from_row_col_spec 3 2 (by decide)⟩

/-- C3: when the manager is connected, `hql_query` returns the result
    set with every null cell mapped to `none`, every non-null cell mapped
    to the wrapper's stored scalar, preserving row order, row count and
    column order (index-wise characterisation via `getElem?`); the unwrap
    map on the spec's example rows yields `[[1, None], ["x", 2]]`. -/
theorem hql_query_unwraps (m : OCM) (gw : GatewayEnv)
    (projection : List (List WCell)) (hdl : Nat) (h : m.conn = some hdl) :
    hql_query m gw projection =
      Outcome.ok (m, projection.map (List.map unwrapCell)) ∧
    (projection.map (List.map unwrapCell)).length = projection.length ∧
    (∀ i : Nat, (projection.map (List.map unwrapCell))[i]? =
      (projection[i]?).map (List.map unwrapCell)) ∧
    (∀ (row : List WCell) (j : Nat),
      (row.map unwrapCell)[j]? = (row[j]?).map unwrapCell) ∧
    unwrapCell WCell.null = none ∧
    (∀ v : PyVal, unwrapCell (WCell.wrap v) = some v) ∧
    [[WCell.wrap (PyVal.int 1), WCell.null],
     [WCell.wrap (PyVal.str "x"), WCell.wrap (PyVal.int 2)]].map
        (List.map unwrapCell) =
      [[some (PyVal.int 1), none],
       [some (PyVal.str "x"), some (PyVal.int 2)]] := by
  refine ⟨?_, List.length_map _ _, fun i => List.getElem?_map _ _ _,
          fun row j => List.getElem?_map _ _ _, rfl, fun v => rfl, by decide⟩
  unfold hql_query
  rw [h]

/-- Witness for C3: a connected manager and the spec's example rows. -/
theorem hql_query_unwraps_witness :
    (OCM.mk (some 5) none (some "h") (some 4064) (some "u") (some "p")).conn
        = some 5 ∧
    hql_query (OCM.mk (some 5) none (some "h") (some 4064) (some "u")
        (some "p")) (GatewayEnv.mk 9 true)
        [[WCell.wrap (PyVal.int 1), WCell.null],
         [WCell.wrap (PyVal.str "x"), WCell.wrap (PyVal.int 2)]] =
      Outcome.ok (OCM.mk (some 5) none (some "h") (some 4064) (some "u")
        (some "p"),
        [[some (PyVal.int 1), none],
         [some (PyVal.str "x"), some (PyVal.int 2)]]) :=
  ⟨rfl, (hql_query_unwraps _ (GatewayEnv.mk 9 true) _ 5 rfl).1⟩

/-- C4: `connect` is idempotent — with a handle already present it
    returns that identical handle, makes no client-library call and
    leaves the state unchanged, so after any successful `connect` a
    second `connect` returns the same handle; and `disconnect` is
    idempotent — after one `disconnect`, a second is a no-op (state
    fixed, no soft-close issued). -/
theorem connect_disconnect_idempotent (m : OCM) (gw : GatewayEnv)
    (hdl : Nat) (h : m.conn = some hdl) :
    connectOCM m gw = (Outcome.ok (m, hdl), none) ∧
    (∀ (m2 m3 : OCM) (gw2 gw3 : GatewayEnv) (h3 : Nat)
        (c : Option ConnectCall),
      connectOCM m2 gw2 = (Outcome.ok (m3, h3), c) →
      connectOCM m3 gw3 = (Outcome.ok (m3, h3), none)) ∧
    (∀ m4 : OCM,
      disconnectOCM (disconnectOCM m4).1 = ((disconnectOCM m4).1, false)) := by
  refine ⟨by unfold connectOCM; rw [h], ?_, ?_⟩
  · intro m2 m3 gw2 gw3 h3 c hc
    have h3conn : m3.conn = some h3 := by
      unfold connectOCM at hc
      match hm2 : m2.conn with
      | some c2 =>
        rw [hm2] at hc
        simp only [Prod.mk.injEq, Outcome.ok.injEq] at hc
        rw [← hc.1.1, ← hc.1.2, hm2]
      | none =>
        rw [hm2] at hc
        by_cases hres : gw2.connectResult
        · simp only [hres, if_true, Prod.mk.injEq, Outcome.ok.injEq] at hc
          rw [← hc.1.1, ← hc.1.2]
        · rw [if_neg hres] at hc
          exact absurd (congrArg Prod.fst hc) (by simp)
    unfold connectOCM
    rw [h3conn]
  · intro m4
    unfold disconnectOCM
    match hm4 : m4.conn with
    | some c4 => simp [hm4]
    | none => simp [hm4]

/-- Witness for C4: a manager already holding handle 7. -/
theorem connect_disconnect_idempotent_witness :
    (OCM.mk (some 7) none none none none none).conn = some 7 ∧
    (connectOCM (OCM.mk (some 7) none none none none none)
        (GatewayEnv.mk 11 true) =
      (Outcome.ok (OCM.mk (some 7) none none none none none, 7), none) ∧
    (∀ (m2 m3 : OCM) (gw2 gw3 : GatewayEnv) (h3 : Nat)
        (c : Option ConnectCall),
      connectOCM m2 gw2 = (Outcome.ok (m3, h3), c) →
      connectOCM m3 gw3 = (Outcome.ok (m3, h3), none)) ∧
    (∀ m4 : OCM,
      disconnectOCM (disconnectOCM m4).1 = ((disconnectOCM m4).1, false))) :=
  ⟨rfl, connect_disconnect_idempotent
    (OCM.mk (some 7) none none none none none) (GatewayEnv.mk 11 true) 7 rfl⟩

/-- C7: when a header is given, at least one row exists and the header
    length differs from the first row's length, `write_csv` returns a
    recoverable `ValueError` to the caller (an error value, not a
    `sys.exit`) and the filesystem is returned unchanged — no file is
    created or modified. -/
theorem write_csv_header_mismatch (rows : List (List PyVal))
    (filename : String) (hd : List PyVal) (fs : FS)
    (hlen : 0 < rows.length) (hne : rows.headI.length ≠ hd.length) :
    write_csv rows filename (some hd) fs =
      (Except.error (WriteErr.valueError
        ("Header does not have the same number of columns " ++
         "as the rows")), fs) := by
  unfold write_csv
  simp [hlen, hne]

/-- Witness for C7: header `["a"]` with rows `[[1, 2]]`. -/
theorem write_csv_header_mismatch_witness :
    0 < ([[PyVal.int 1, PyVal.int 2]] : List (List PyVal)).length ∧
    ([[PyVal.int 1, PyVal.int 2]] : List (List PyVal)).headI.length ≠
      [PyVal.str "a"].length ∧
    write_csv [[PyVal.int 1, PyVal.int 2]] "out.csv" (some [PyVal.str "a"])
        (fun _ => none) =
      (Except.error (WriteErr.valueError
        ("Header does not have the same number of columns " ++
         "as the rows")), fun _ => none) :=
  ⟨by decide, by decide,
   write_csv_header_mismatch [[PyVal.int 1, PyVal.int 2]] "out.csv"
     [PyVal.str "a"] (fun _ => none) (by decide) (by decide)⟩

/-- Concatenation of a list of already-terminated output lines. -/
def joinLines : List String → String
  | [] => ""
  | l :: ls => l ++ joinLines ls

/-- When no field of any row needs escaping, `writeAll` succeeds and the
    written text is the prefix followed by one comma-joined,
    `\r\n`-terminated line per row, in input order. -/
theorem writeAll_safe (rs : List (List PyVal)) (acc : String)
    (hsafe : ∀ r ∈ rs, (r.map pyStr).any fieldNeedsEscape = false) :
    writeAll rs acc =
      (acc ++ joinLines (rs.map (fun r =>
        String.intercalate "," (r.map pyStr) ++ "\r\n")), none) := by
  induction rs generalizing acc with
  | nil => simp [writeAll, joinLines]
  | cons r rest ih =>
    have hr := hsafe r (List.mem_cons_self r rest)
    have hrest : ∀ x ∈ rest, (x.map pyStr).any fieldNeedsEscape = false :=
      fun x hx => hsafe x (List.mem_cons_of_mem r hx)
    unfold writeAll csvLine
    rw [hr]
    simp only [Bool.false_eq_true, if_false, ih _ hrest, List.map_cons,
      joinLines]
    rw [String.append_assoc]

/-- C10: with a header given and an empty rows list, no length validation
    happens (any header length is accepted), the call succeeds and the
    file contains exactly the header line; other paths are untouched. -/
theorem write_csv_empty_rows_header_only (hd : List PyVal)
    (filename : String) (fs : FS)
    (hsafe : (hd.map pyStr).any fieldNeedsEscape = false) :
    (write_csv [] filename (some hd) fs).1 = Except.ok () ∧
    (write_csv [] filename (some hd) fs).2 filename =
      some (String.intercalate "," (hd.map pyStr) ++ "\r\n") ∧
    ∀ p, p ≠ filename → (write_csv [] filename (some hd) fs).2 p = fs p := by
  have hw := writeAll_safe [hd] "" (by
    intro r hr
    rw [List.mem_singleton] at hr
    rw [hr]
    exact hsafe)
  unfold write_csv
  simp only [List.length_nil, Nat.lt_irrefl, decide_False, Bool.and_false,
    Bool.false_and, Bool.false_eq_true, if_false, List.singleton_append,
    List.nil_append, List.append_nil]
  rw [hw]
  refine ⟨rfl, ?_, ?_⟩
  · simp [joinLines]
  · intro p hp
    simp [hp]

/-- Witness for C10: header `["a", "b", "c"]` (length 3) with no rows. -/
theorem write_csv_empty_rows_header_only_witness :
    ((([PyVal.str "a", PyVal.str "b", PyVal.str "c"].map pyStr).any
        fieldNeedsEscape) = false) ∧
    ((write_csv [] "out.csv"
        (some [PyVal.str "a", PyVal.str "b", PyVal.str "c"])
        (fun _ => some "old")).1 = Except.ok () ∧
     (write_csv [] "out.csv"
        (some [PyVal.str "a", PyVal.str "b", PyVal.str "c"])
        (fun _ => some "old")).2 "out.csv" =
        some (String.intercalate ","
          ([PyVal.str "a", PyVal.str "b", PyVal.str "c"].map pyStr) ++
          "\r\n") ∧
     ∀ p, p ≠ "out.csv" →
       (write_csv [] "out.csv"
          (some [PyVal.str "a", PyVal.str "b", PyVal.str "c"])
          (fun _ => some "old")).2 p = some "old") :=
  ⟨by decide,
   write_csv_empty_rows_header_only
     [PyVal.str "a", PyVal.str "b", PyVal.str "c"] "out.csv"
     (fun _ => some "old") (by decide)⟩

/-- C8: for every valid call (the length validation passes and no field
    needs escaping under `QUOTE_NONE`), `write_csv` succeeds and the file
    at the target path contains, unquoted, the header line first (when a
    header is given) followed by the data rows in input order — one
    comma-joined `\r\n`-terminated line per row — regardless of any
    previous content at that path (overwrite); other paths untouched. -/
theorem write_csv_valid_output (rows : List (List PyVal)) (filename : String)
    (header : Option (List PyVal)) (fs : FS)
    (hvalid : ∀ hd, header = some hd → 0 < rows.length →
      rows.headI.length = hd.length)
    (hsafe : ∀ r ∈ header.toList ++ rows,
      (r.map pyStr).any fieldNeedsEscape = false) :
    (write_csv rows filename header fs).1 = Except.ok () ∧
    (write_csv rows filename header fs).2 filename =
      some (joinLines ((header.toList ++ rows).map (fun r =>
        String.intercalate "," (r.map pyStr) ++ "\r\n"))) ∧
    ∀ p, p ≠ filename → (write_csv rows filename header fs).2 p = fs p := by
  cases header with
  | none =>
    have hw := writeAll_safe rows "" (by
      intro r hr
      exact hsafe r (by simpa using hr))
    unfold write_csv
    simp only [Option.isSome_none, Bool.false_and, Bool.false_eq_true,
      if_false, List.nil_append, hw, Option.toList_none]
    refine ⟨trivial, by simp, fun p hp => by simp [hp]⟩
  | some hd =>
    have hw := writeAll_safe (hd :: rows) "" (by
      intro r hr
      exact hsafe r (by simpa using hr))
    unfold write_csv
    by_cases h0 : 0 < rows.length
    · have heq : rows.headI.length = hd.length := hvalid hd rfl h0
      simp only [Option.isSome_some, Bool.true_and, Option.getD_some, heq,
        ne_eq, not_true_eq_false, decide_False, Bool.and_false,
        Bool.false_eq_true, if_false, List.singleton_append, hw,
        Option.toList_some]
      refine ⟨trivial, by simp, fun p hp => by simp [hp]⟩
    · have hd0 : decide (0 < rows.length) = false := decide_eq_false h0
      simp only [Option.isSome_some, Bool.true_and, hd0, Bool.false_and,
        Bool.false_eq_true, if_false, List.singleton_append, hw,
        Option.toList_some]
      refine ⟨trivial, by simp, fun p hp => by simp [hp]⟩

/-- Witness for C8: header `["a","b"]`, rows `[[1,2],[3,4]]`, over a
    filesystem already holding other content at the target path; the
    resulting content is the literal text `a,b\r\n1,2\r\n3,4\r\n`. -/
theorem write_csv_valid_output_witness :
    (∀ hd, (some [PyVal.str "a", PyVal.str "b"] : Option (List PyVal)) =
        some hd →
      0 < ([[PyVal.int 1, PyVal.int 2], [PyVal.int 3, PyVal.int 4]] :
        List (List PyVal)).length →
      ([[PyVal.int 1, PyVal.int 2], [PyVal.int 3, PyVal.int 4]] :
        List (List PyVal)).headI.length = hd.length) ∧
    ((write_csv [[PyVal.int 1, PyVal.int 2], [PyVal.int 3, PyVal.int 4]]
        "out.csv" (some [PyVal.str "a", PyVal.str "b"])
        (fun _ => some "stale")).1 = Except.ok () ∧
     (write_csv [[PyVal.int 1, PyVal.int 2], [PyVal.int 3, PyVal.int 4]]
        "out.csv" (some [PyVal.str "a", PyVal.str "b"])
        (fun _ => some "stale")).2 "out.csv" =
        some (joinLines
          (((some [PyVal.str "a", PyVal.str "b"] :
              Option (List PyVal)).toList ++
            [[PyVal.int 1, PyVal.int 2], [PyVal.int 3, PyVal.int 4]]).map
            (fun r => String.intercalate "," (r.map pyStr) ++ "\r\n"))) ∧
     ∀ p, p ≠ "out.csv" →
       (write_csv [[PyVal.int 1, PyVal.int 2], [PyVal.int 3, PyVal.int 4]]
          "out.csv" (some [PyVal.str "a", PyVal.str "b"])
          (fun _ => some "stale")).2 p = some "stale") ∧
    joinLines
      (((some [PyVal.str "a", PyVal.str "b"] :
          Option (List PyVal)).toList ++
        [[PyVal.int 1, PyVal.int 2], [PyVal.int 3, PyVal.int 4]]).map
        (fun r => String.intercalate "," (r.map pyStr) ++ "\r\n")) =
      "a,b\r\n1,2\r\n3,4\r\n" :=
  ⟨fun hd hhd _ => by
      cases hhd
      decide,
   write_csv_valid_output
     [[PyVal.int 1, PyVal.int 2], [PyVal.int 3, PyVal.int 4]] "out.csv"
     (some [PyVal.str "a", PyVal.str "b"]) (fun _ => some "stale")
     (fun hd hhd _ => by cases hhd; decide)
     (by decide),
   by decide⟩

/-- C1: constructed with no explicit config path, when the CLI session
    store reports an active session (its uuid is present), HOST,
    USERNAME, SUUID and PORT come entirely from the session store's
    values, PASSWORD stays absent, and the config file is never read —
    for every environment, hence even when the file exists, is
    world-accessible or fails to parse. -/
theorem init_session_precedence (env : InitEnv) (u : String)
    (h : env.get_current.suuid = some u) :
    initOCM none env =
      (Outcome.ok (OCM.mk none (some u) env.get_current.host
        env.get_current.port env.get_current.username none), false) := by
  unfold initOCM
  simp [h]

/-- Environment for the C1 witness: an active CLI session together with
    an existing, world-accessible, unparseable config file. -/
def envC1 : InitEnv where
  get_current := ⟨some "omero.example.org", some "alice", some "sess-uuid",
    some 4064⟩
  expanduser := fun p => p
  path_exists := fun _ => true
  isfile := fun _ => true
  st_mode := fun _ => 438
  readConfig := fun _ => ⟨Except.error "No section: OMEROCredentials",
    Except.error "No section: OMEROCredentials",
    Except.error "No section: OMEROCredentials",
    Except.error "No section: OMEROCredentials"⟩

/-- Witness for C1: the session wins over the broken config file. -/
theorem init_session_precedence_witness :
    envC1.get_current.suuid = some "sess-uuid" ∧
    initOCM none envC1 =
      (Outcome.ok (OCM.mk none (some "sess-uuid") envC1.get_current.host
        envC1.get_current.port envC1.get_current.username none), false) :=
  ⟨rfl, init_session_precedence envC1 "sess-uuid" rfl⟩

/-- C2: with an explicit config path whose file exists but whose
    permission mode has any group or other bit set
    (`st_mode &&& 0o77 ≠ 0`), construction exits the process with status
    1 and the stderr message instructing the user to run `chmod 600`,
    the config file is never parsed and no credentials are resolved —
    for every environment, hence regardless of the file's contents. -/
theorem init_insecure_perms_fatal (p : String) (env : InitEnv)
    (hex : env.path_exists (env.expanduser p) = true)
    (hf : env.isfile (env.expanduser p) = true)
    (hm : env.st_mode (env.expanduser p) &&& 63 ≠ 0) :
    initOCM (some p) env =
      (Outcome.exit 1 (permMsg (env.expanduser p)), false) := by
  unfold initOCM
  simp [hex, hf, hm]

/-- Environment for the C2 witness: no session, a config file with mode
    0o100664 (group/other readable) holding perfectly valid contents. -/
def envC2 : InitEnv where
  get_current := ⟨none, none, none, none⟩
  expanduser := fun p => p
  path_exists := fun _ => true
  isfile := fun _ => true
  st_mode := fun _ => 33204
  readConfig := fun _ => ⟨Except.ok "omero.example.org", Except.ok 4064,
    Except.ok "alice", Except.ok "s3cret"⟩

/-- Witness for C2 at path `/home/alice/.omero/config`. -/
theorem init_insecure_perms_fatal_witness :
    envC2.path_exists (envC2.expanduser "/home/alice/.omero/config")
        = true ∧
    envC2.isfile (envC2.expanduser "/home/alice/.omero/config") = true ∧
    envC2.st_mode (envC2.expanduser "/home/alice/.omero/config") &&& 63
        ≠ 0 ∧
    initOCM (some "/home/alice/.omero/config") envC2 =
      (Outcome.exit 1
        (permMsg (envC2.expanduser "/home/alice/.omero/config")), false) :=
  ⟨rfl, rfl, by decide,
   init_insecure_perms_fatal "/home/alice/.omero/config" envC2 rfl rfl
     (by decide)⟩

/-- C6: when the config branch is reached (an explicit path was given,
    or no active session exists) and the expanded path — the given path,
    or the default `~/.omero/config` when none was given — does not name
    an existing regular file, construction exits the process with status
    1 after writing a message to stderr. -/
theorem init_missing_file_fatal (config_file : Option String)
    (env : InitEnv)
    (hses : config_file = none → env.get_current.suuid = none)
    (hne : (env.path_exists
        (env.expanduser (config_file.getD "~/.omero/config")) &&
      env.isfile
        (env.expanduser (config_file.getD "~/.omero/config"))) = false) :
    initOCM config_file env =
      (Outcome.exit 1
        (missingMsg
          (env.expanduser (config_file.getD "~/.omero/config"))), false) := by
  unfold initOCM
  cases config_file with
  | none =>
    have hs := hses rfl
    simp only [Option.getD_none] at hne
    simp [hs, hne]
  | some p =>
    simp only [Option.getD_some] at hne
    simp [hne]

/-- Environment for the C6 witness: no session, no file anywhere. -/
def envC6 : InitEnv where
  get_current := ⟨none, none, none, none⟩
  expanduser := fun _ => "/home/alice/.omero/config"
  path_exists := fun _ => false
  isfile := fun _ => false
  st_mode := fun _ => 0
  readConfig := fun _ => ⟨Except.error "x", Except.error "x",
    Except.error "x", Except.error "x"⟩

/-- Witness for C6: default path, no session, missing file. -/
theorem init_missing_file_fatal_witness :
    ((none : Option String) = none → envC6.get_current.suuid = none) ∧
    (envC6.path_exists
        (envC6.expanduser ((none : Option String).getD "~/.omero/config")) &&
      envC6.isfile
        (envC6.expanduser
          ((none : Option String).getD "~/.omero/config"))) = false ∧
    initOCM none envC6 =
      (Outcome.exit 1
        (missingMsg
          (envC6.expanduser
            ((none : Option String).getD "~/.omero/config"))), false) :=
  ⟨fun _ => rfl, rfl, init_missing_file_fatal none envC6 (fun _ => rfl) rfl⟩

/-- Any state successfully produced by `__init__` is disconnected and
    carries exactly one authentication mode: username and password
    present with no session id (config-file branch), or a session id
    present with no password (session branch). -/
theorem init_ok_invariant (cf : Option String) (env : InitEnv) (m : OCM)
    (rd : Bool) (h : initOCM cf env = (Outcome.ok m, rd)) :
    m.conn = none ∧
    ((m.USERNAME.isSome ∧ m.PASSWORD.isSome ∧ m.SUUID = none) ∨
     (m.PASSWORD = none ∧ m.SUUID.isSome)) := by
  unfold initOCM at h
  split at h
  · cases hsu : env.get_current.suuid with
    | some u =>
      simp only [Option.isSome_none, Bool.false_or, hsu, Option.isNone_some,
        Bool.false_eq_true, if_false, Prod.mk.injEq, Outcome.ok.injEq] at h
      obtain ⟨hm, -⟩ := h
      subst hm
      exact ⟨rfl, Or.inr ⟨rfl, rfl⟩⟩
    | none =>
      simp only [Option.isSome_none, Bool.false_or, hsu, Option.isNone_none,
        if_true] at h
      split at h
      · simp at h
      · split at h
        · simp at h
        · split at h
          · simp at h
          · split at h
            · simp at h
            · split at h
              · simp at h
              · split at h
                · simp at h
                · simp only [Prod.mk.injEq, Outcome.ok.injEq] at h
                  obtain ⟨hm, -⟩ := h
                  subst hm
                  exact ⟨rfl, Or.inl ⟨rfl, rfl, rfl⟩⟩
  · simp only [Option.isSome_some, Bool.true_or, if_true] at h
    split at h
    · simp at h
    · split at h
      · simp at h
      · split at h
        · simp at h
        · split at h
          · simp at h
          · split at h
            · simp at h
            · split at h
              · simp at h
              · simp only [Prod.mk.injEq, Outcome.ok.injEq] at h
                obtain ⟨hm, -⟩ := h
                subst hm
                exact ⟨rfl, Or.inl ⟨rfl, rfl, rfl⟩⟩

/-- The two ways the client library can authenticate a new gateway. -/
inductive AuthMode where
  | userPass
  | session
  deriving DecidableEq, Repr

/-- Modelled from the spec: the out-of-scope client library
    (`BlitzGateway.connect`) authenticates a new handle "using
    username/password if present, else session-id".  The code passes all
    supplied credentials through; the mode is determined by which are
    present. -/
def authModeUsed (c : ConnectCall) : AuthMode :=
  if c.username.isSome && c.passwd.isSome then AuthMode.userPass
  else AuthMode.session

/-- C5: starting from any successfully constructed manager, a fresh
    `connect` hands the client library the manager's username, password
    and session id unchanged, and exactly one authentication mode is
    usable: when username/password authentication applies both are
    present and the supplied session id is null, and when session
    authentication applies a session id is present and the password is
    null. -/
theorem connect_single_auth_mode (cf : Option String) (env : InitEnv)
    (gw : GatewayEnv) (m : OCM) (rd : Bool)
    (h : initOCM cf env = (Outcome.ok m, rd)) :
    ∃ call : ConnectCall, (connectOCM m gw).2 = some call ∧
      call.username = m.USERNAME ∧ call.passwd = m.PASSWORD ∧
      call.sUuid = m.SUUID ∧
      ((call.username.isSome ∧ call.passwd.isSome ∧ call.sUuid = none) ∨
       (call.passwd = none ∧ call.sUuid.isSome)) ∧
      (authModeUsed call = AuthMode.userPass →
        call.username.isSome ∧ call.passwd.isSome ∧ call.sUuid = none) ∧
      (authModeUsed call = AuthMode.session →
        call.passwd = none ∧ call.sUuid.isSome) := by
  obtain ⟨hconn, hinv⟩ := init_ok_invariant cf env m rd h
  refine ⟨⟨m.USERNAME, m.PASSWORD, m.HOST, m.PORT, m.SUUID⟩, ?_, rfl, rfl,
    rfl, hinv, ?_, ?_⟩
  · unfold connectOCM
    rw [hconn]
    by_cases hgw : gw.connectResult <;> simp [hgw]
  · rcases hinv with ⟨hu, hp, hs⟩ | ⟨hp, hs⟩
    · exact fun _ => ⟨hu, hp, hs⟩
    · intro hup
      have hmode : authModeUsed
          ⟨m.USERNAME, m.PASSWORD, m.HOST, m.PORT, m.SUUID⟩ =
          AuthMode.session := by
        unfold authModeUsed
        simp [hp]
      exact absurd (hmode.symm.trans hup) (by decide)
  · rcases hinv with ⟨hu, hp, hs⟩ | ⟨hp, hs⟩
    · intro hsess
      have hmode : authModeUsed
          ⟨m.USERNAME, m.PASSWORD, m.HOST, m.PORT, m.SUUID⟩ =
          AuthMode.userPass := by
        unfold authModeUsed
        simp [hu, hp]
      exact absurd (hmode.symm.trans hsess) (by decide)
    · exact fun _ => ⟨hp, hs⟩

/-- Environment for the C5 witness: an active CLI session. -/
def envC5 : InitEnv where
  get_current := ⟨some "omero.example.org", some "bob", some "uuid-1234",
    some 4064⟩
  expanduser := fun p => p
  path_exists := fun _ => false
  isfile := fun _ => false
  st_mode := fun _ => 0
  readConfig := fun _ => ⟨Except.error "x", Except.error "x",
    Except.error "x", Except.error "x"⟩

/-- The manager state `__init__` produces from `envC5`. -/
def mC5 : OCM :=
  OCM.mk none (some "uuid-1234") (some "omero.example.org") (some 4064)
    (some "bob") none

/-- Witness for C5: session-mode construction followed by `connect`. -/
theorem connect_single_auth_mode_witness :
    initOCM none envC5 = (Outcome.ok mC5, false) ∧
    (∃ call : ConnectCall,
      (connectOCM mC5 (GatewayEnv.mk 3 true)).2 = some call ∧
      call.username = mC5.USERNAME ∧ call.passwd = mC5.PASSWORD ∧
      call.sUuid = mC5.SUUID ∧
      ((call.username.isSome ∧ call.passwd.isSome ∧ call.sUuid = none) ∨
       (call.passwd = none ∧ call.sUuid.isSome)) ∧
      (authModeUsed call = AuthMode.userPass →
        call.username.isSome ∧ call.passwd.isSome ∧ call.sUuid = none) ∧
      (authModeUsed call = AuthMode.session →
        call.passwd = none ∧ call.sUuid.isSome)) :=
  ⟨rfl, connect_single_auth_mode none envC5 (GatewayEnv.mk 3 true) mC5
    false rfl⟩
